import Mathlib

/-!
Shallow embedding of `src/screw_planner.cpp` (namespace `ap_planning`,
class `ScrewPlanner`).  The external collaborators (MoveIt kinematics,
inverse kinematics, OMPL's planner/validity machinery, tf2 transforms)
are modelled as oracles bundled in a `PlanEnv`; the control flow of
`plan`, `setupStateSpace`, `findStartGoalStates`, `findGoalStates`,
`increaseStateList` and `populateResponse` is translated statement by
statement.  Machine doubles are modelled as rationals; the constant
`M_PI` used in `setupStateSpace` is kept symbolic (`BoundVal.pi`) since
its numeric value is never consumed by this file's code.
-/

namespace ap_planning

/-- Result codes of `ap_planning::Result` that `ScrewPlanner::plan` returns. -/
inductive Result where
  | SUCCESS
  | INITIALIZATION_FAIL
  | NO_IK_SOLUTION
  | PLANNING_FAIL
deriving DecidableEq

/-- Joint types distinguished by `setupStateSpace`; every MoveIt joint type
other than revolute / prismatic / planar falls into the final `else` branch,
modelled by `OTHER`. -/
inductive JointType where
  | REVOLUTE
  | PRISMATIC
  | PLANAR
  | OTHER
deriving DecidableEq

/-- An active joint model as consumed by `setupStateSpace`: its type and the
variable bounds returned by `joint->getVariableBounds(joint->getName())`. -/
structure Joint where
  jtype : JointType
  position_bounded : Bool
  min_position : ℚ
  max_position : ℚ
deriving DecidableEq

/-- A bound value passed to `ompl::base::RealVectorStateSpace::addDimension`.
The planar branch passes `±M_PI`, kept symbolic here. -/
inductive BoundVal where
  | rat (x : ℚ)
  | pi
  | negPi
deriving DecidableEq

/-- Dimensions contributed to the joint subspace by one active joint
(the body of the loop in `setupStateSpace`, lines 104-123): planar adds
three dimensions, bounded revolute/prismatic adds one, unbounded
revolute/prismatic fails, any other type adds nothing. -/
def jointDims (j : Joint) : Option (List (BoundVal × BoundVal)) :=
  match j.jtype with
  | .PLANAR =>
      some [(.rat (-1000), .rat 1000), (.rat (-1000), .rat 1000), (.negPi, .pi)]
  | .REVOLUTE | .PRISMATIC =>
      if j.position_bounded then
        some [(.rat j.min_position, .rat j.max_position)]
      else
        none
  | .OTHER => some []

/-- The joint subspace built by the loop of `setupStateSpace`. -/
def buildJointSpace : List Joint → Option (List (BoundVal × BoundVal))
  | [] => some []
  | j :: rest =>
      match jointDims j with
      | none => none
      | some d => (buildJointSpace rest).map (fun tl => d ++ tl)

/-- `ScrewPlanner::setupStateSpace` (lines 91-128): one screw dimension
bounded to `[0, req.theta]` plus the joint subspace; returns `none` exactly
when the C++ function returns `false`. -/
def setupStateSpace (theta : ℚ) (joints : List Joint) :
    Option (List (BoundVal × BoundVal) × List (BoundVal × BoundVal)) :=
  (buildJointSpace joints).map (fun jdims => ([(.rat 0, .rat theta)], jdims))

/-- `APPlanningRequest`, restricted to the fields this file's control flow
reads; the start pose and screw message only flow into external transforms,
so the pose type `P` is abstract. -/
structure APPlanningRequest (P : Type) where
  theta : ℚ
  start_joint_state : List ℚ
  start_pose : P

/-- `APPlanningResponse` with `joint_trajectory` flattened into `joint_names`
and `points` (each point is its `positions` vector). -/
structure APPlanningResponse where
  joint_names : List String
  points : List (List ℚ)
  trajectory_is_valid : Bool
  percentage_complete : ℚ
  path_length : ℚ
deriving DecidableEq

/-- Lines 24-28 of `plan`: set the response to the failing case.
`path_length` is not touched there. -/
def resetResponse (res : APPlanningResponse) : APPlanningResponse :=
  { res with joint_names := [], points := [],
             percentage_complete := 0, trajectory_is_valid := false }

/-- One OMPL compound state of the solution path: the screw subspace value
`screw_state[0]` and the joint subspace values `robot_state[i]`. -/
structure PathState where
  theta : ℚ
  q : ℕ → ℚ

/-- The solved `ompl::geometric::PathGeometric` handed to
`populateResponse` (after `simplifySolution`): its raw states, the state
list after `interpolate()`, and `solution.length()`. -/
structure PathGeometric where
  states : List PathState
  interpolated : List PathState
  pathLength : ℚ

/-- Modelled from the spec: `checkDuplicateState`, declared by the planner
class but not present under `src/`.  Per the spec, an IK success is checked
for duplication, within a joint-space distance threshold, against the
already-accepted configurations, and kept only when it duplicates none of
them.  Returns `true` when the candidate passes (is not a duplicate); the
distance function and threshold are parameters. -/
def checkDuplicateState (dist : List ℚ → List ℚ → ℚ) (threshold : ℚ)
    (state_list : List (List ℚ)) (joint_values : List ℚ) : Bool :=
  state_list.all fun s => decide (threshold ≤ dist s joint_values)

/-- The oracles for the external collaborators of one `plan` call.
`K` is the type of a mutable `moveit::core::RobotState` snapshot, `P` the
pose type.  `ikSolve` models `setFromIK` (the returned `K` is the state
after the call, the `Bool` its success flag), `randomState` is the stream
of `setToRandomPositions` draws, `goalPoseMsg` the externally computed
`tf2::toMsg(goal_pose_)`, `solve` the OMPL planner applied to the start and
goal configuration pools (returning the simplified path on success), and
`isValid` the `SpaceInformation::isValid` check used during extraction. -/
structure PlanEnv (K P : Type) where
  joints : List Joint
  variableCount : ℕ
  variableNames : List String
  defaultState : K
  setPositions : List ℚ → K
  randomState : ℕ → K
  ikSolve : K → P → K × Bool
  copyPositions : K → List ℚ
  goalPoseMsg : P
  dupDist : List ℚ → List ℚ → ℚ
  dupThreshold : ℚ
  solve : List (List ℚ) → List (List ℚ) → Option PathGeometric
  isValid : PathState → Bool

variable {K P : Type}

/-- `ScrewPlanner::increaseStateList` (lines 287-304): try IK from the
current state; on success copy the joint values and append them when they
pass the duplicate check. -/
def increaseStateList (env : PlanEnv K P) (pose : P) (k : K)
    (state_list : List (List ℚ)) : K × List (List ℚ) :=
  let ik := env.ikSolve k pose
  if ik.2 then
    let joint_values := env.copyPositions ik.1
    if checkDuplicateState env.dupDist env.dupThreshold state_list joint_values then
      (ik.1, state_list ++ [joint_values])
    else
      (ik.1, state_list)
  else
    (ik.1, state_list)

/-- The while loop of `findGoalStates` (lines 274-282), with the loop
counter `i` made explicit and the bound `i < 2 * num_goal` carried as the
remaining fuel (`fuel + i = 2 * num_goal` at entry).  Returns the final
counter value and the goal pool. -/
def goalLoop (env : PlanEnv K P) (num_goal : ℕ) (pose : P) :
    ℕ → ℕ → K → List (List ℚ) → ℕ × List (List ℚ)
  | 0, i, _, configs => (i, configs)
  | fuel + 1, i, k, configs =>
      if configs.length < num_goal then
        let step := increaseStateList env pose k configs
        goalLoop env num_goal pose fuel (i + 1) (env.randomState i) step.2
      else
        (i, configs)

/-- `ScrewPlanner::findGoalStates` (lines 256-285): requires the given start
joint state to match the group's variable count, seeds the start pool with
it, and fills the goal pool by repeated IK at the goal pose.  `none` models
the C++ `false` return. -/
def findGoalStates (env : PlanEnv K P) (req : APPlanningRequest P)
    (num_goal : ℕ) : Option (List (List ℚ) × List (List ℚ)) :=
  if req.start_joint_state.length ≠ env.variableCount then
    none
  else
    let start_configs := [req.start_joint_state]
    let k0 := env.setPositions req.start_joint_state
    let result := goalLoop env num_goal env.goalPoseMsg (2 * num_goal) 0 k0 []
    if result.2.length > 0 then some (start_configs, result.2) else none

/-- The while loop of `findStartGoalStates` (lines 236-251): each iteration
re-seeds to a random state, then attempts a start configuration and a goal
configuration (the goal attempt's IK seed is the state left by the start
attempt).  Counter and fuel as in `goalLoop`
(`fuel + i = 2 * (num_goal + num_start)` at entry). -/
def sgLoop (env : PlanEnv K P) (startPose goalPose : P)
    (num_start num_goal : ℕ) :
    ℕ → ℕ → K → List (List ℚ) × List (List ℚ) →
      ℕ × (List (List ℚ) × List (List ℚ))
  | 0, i, _, pools => (i, pools)
  | fuel + 1, i, _, pools =>
      if pools.1.length < num_start ∨ pools.2.length < num_goal then
        let k1 := env.randomState i
        let stepS :=
          if pools.1.length < num_start then
            increaseStateList env startPose k1 pools.1
          else (k1, pools.1)
        let stepG :=
          if pools.2.length < num_goal then
            increaseStateList env goalPose stepS.1 pools.2
          else (stepS.1, pools.2)
        sgLoop env startPose goalPose num_start num_goal fuel (i + 1)
          stepG.1 (stepS.2, stepG.2)
      else
        (i, pools)

/-- `ScrewPlanner::findStartGoalStates` (lines 219-254). -/
def findStartGoalStates (env : PlanEnv K P) (req : APPlanningRequest P)
    (num_start num_goal : ℕ) (k0 : K) :
    Option (List (List ℚ) × List (List ℚ)) :=
  if num_goal < 1 ∨ num_start < 1 then
    none
  else
    let result := sgLoop env req.start_pose env.goalPoseMsg num_start num_goal
      (2 * (num_goal + num_start)) 0 k0 ([], [])
    if result.2.1.length > 0 ∧ result.2.2.length > 0 then some result.2 else none

/-- The `positions` vector copied from one state (lines 343-347):
`robot_state[i]` for `i < num_joints`. -/
def extractPoint (numJoints : ℕ) (s : PathState) : List ℚ :=
  (List.range numJoints).map s.q

/-- The per-state loop of `populateResponse` (lines 323-351): append each
valid state's positions; at the first invalid state set the failure fields
from that state's screw value and stop (`Bool` result `false`); `true`
means the walk completed. -/
def appendLoop (valid : PathState → Bool) (theta : ℚ) (numJoints : ℕ) :
    List PathState → APPlanningResponse → APPlanningResponse × Bool
  | [], res => (res, true)
  | s :: rest, res =>
      if valid s then
        appendLoop valid theta numJoints rest
          { res with points := res.points ++ [extractPoint numJoints s] }
      else
        ({ res with trajectory_is_valid := false,
                    percentage_complete := s.theta / theta }, false)

/-- `ScrewPlanner::populateResponse` (lines 306-366): return untouched when
the raw path has fewer than 2 states; otherwise interpolate, set the joint
names, walk the interpolated states, and on a completed walk set the final
validity from the last state's screw value (`err > 0.01` means invalid),
the completion ratio and the path length. -/
def populateResponse (valid : PathState → Bool) (names : List String)
    (theta : ℚ) (sol : PathGeometric) (res : APPlanningResponse) :
    APPlanningResponse :=
  if sol.states.length < 2 then
    res
  else
    let numJoints := names.length
    let res0 := { res with joint_names := names }
    let walk := appendLoop valid theta numJoints sol.interpolated res0
    if walk.2 then
      match sol.interpolated.getLast? with
      | none => walk.1
      | some lastS =>
          { walk.1 with
              trajectory_is_valid := decide (|theta - lastS.theta| ≤ 1 / 100),
              percentage_complete := lastS.theta / theta,
              path_length := sol.pathLength }
    else
      walk.1

/-- Lines 53-63 of `plan`: `passed_start_config_` is set by `getStartTF`
(line 175) to whether the request's start joint state matches the group's
variable count; the matching case generates goals only (`num_goal = 10`),
the other case generates both pools (`num_start = 5`, `num_goal = 10`)
starting from the default-valued kinematic state. -/
def findConfigs (env : PlanEnv K P) (req : APPlanningRequest P) :
    Option (List (List ℚ) × List (List ℚ)) :=
  if req.start_joint_state.length = env.variableCount then
    findGoalStates env req 10
  else
    findStartGoalStates env req 5 10 env.defaultState

/-- `ScrewPlanner::plan` (lines 22-89).  `setSpaceParameters` and
`setSimpleSetup` always return `true` in the source, so only
`setupStateSpace` can produce INITIALIZATION_FAIL; the solver oracle
receives the start and goal configuration pools and returns the simplified
solution path or `none`. -/
def plan (env : PlanEnv K P) (req : APPlanningRequest P)
    (res : APPlanningResponse) : Result × APPlanningResponse :=
  let res0 := resetResponse res
  match setupStateSpace req.theta env.joints with
  | none => (.INITIALIZATION_FAIL, res0)
  | some _ =>
      match findConfigs env req with
      | none => (.NO_IK_SOLUTION, res0)
      | some cfgs =>
          match env.solve cfgs.1 cfgs.2 with
          | none => (.PLANNING_FAIL, res0)
          | some sol =>
              (.SUCCESS, populateResponse env.isValid env.variableNames
                req.theta sol res0)

/-! Concrete fixtures used to evaluate the development on closed inputs. -/

/-- An empty response value. -/
def resEmpty : APPlanningResponse := ⟨[], [], false, 0, 0⟩

/-- A path state at full screw progress. -/
def stOne : PathState := ⟨1, fun _ => 0⟩

/-- A path state at zero screw progress. -/
def stZero : PathState := ⟨0, fun _ => 7⟩

/-- A path state half-way along the screw. -/
def stHalf : PathState := ⟨1 / 2, fun _ => 3⟩

/-- A two-state solved path whose interpolation is a single state at full
progress. -/
def demoPath : PathGeometric := ⟨[stOne, stOne], [stOne], 0⟩

/-- A solved path with a single raw state (fewer than 2). -/
def shortPath : PathGeometric := ⟨[stOne], [stOne], 0⟩

/-- A two-state solved path interpolated to a valid state followed by an
invalid one (under `vHalf`). -/
def solMixed : PathGeometric := ⟨[stZero, stHalf], [stZero, stHalf], 5⟩

/-- A validity check accepting exactly the states below half progress. -/
def vHalf : PathState → Bool := fun s => decide (s.theta < 1 / 2)

/-- A joint of a type other than revolute / prismatic / planar. -/
def jOther : Joint := ⟨.OTHER, false, 0, 0⟩

/-- A revolute joint with position bounds. -/
def jRevBounded : Joint := ⟨.REVOLUTE, true, -2, 2⟩

/-- A revolute joint lacking position bounds. -/
def jRevUnbounded : Joint := ⟨.REVOLUTE, false, 0, 0⟩

/-- A planar joint. -/
def jPlanarEx : Joint := ⟨.PLANAR, false, 0, 0⟩

/-- An environment whose IK always succeeds with configuration `[0, 0]` and
whose planner always solves with `demoPath`. -/
def envIKUnit : PlanEnv Unit Unit where
  joints := []
  variableCount := 2
  variableNames := ["j1", "j2"]
  defaultState := ()
  setPositions := fun _ => ()
  randomState := fun _ => ()
  ikSolve := fun k _ => (k, true)
  copyPositions := fun _ => [0, 0]
  goalPoseMsg := ()
  dupDist := fun _ _ => 0
  dupThreshold := 1
  solve := fun _ _ => some demoPath
  isValid := fun _ => true

/-- Like `envIKUnit` but the IK solver always fails. -/
def envNoIK : PlanEnv Unit Unit := { envIKUnit with ikSolve := fun k _ => (k, false) }

/-- An environment whose only active joint has an unsupported type. -/
def envOtherJoint : PlanEnv Unit Unit :=
  { envNoIK with joints := [jOther], variableCount := 0 }

/-- Like `envIKUnit` but the external planner reports no solution. -/
def envPlanFail : PlanEnv Unit Unit := { envIKUnit with solve := fun _ _ => none }

/-- Like `envIKUnit` but the external planner returns a path with a single
state. -/
def envShortPath : PlanEnv Unit Unit := { envIKUnit with solve := fun _ _ => some shortPath }

/-- A request whose start joint state has the wrong (non-zero) size for
`envIKUnit`. -/
def reqWrongLen : APPlanningRequest Unit := ⟨1, [0], ()⟩

/-- A request with an empty start joint state. -/
def reqEmptyStart : APPlanningRequest Unit := ⟨1, [], ()⟩

/-- A request whose start joint state matches `envIKUnit`'s variable
count. -/
def reqMatched : APPlanningRequest Unit := ⟨1, [0, 0], ()⟩

/-! Helper lemmas. -/

theorem buildJointSpace_eq_none {joints : List Joint} :
    buildJointSpace joints = none ↔ ∃ j ∈ joints, jointDims j = none := by
  induction joints with
  | nil => simp [buildJointSpace]
  | cons j rest ih =>
      cases hj : jointDims j with
      | none =>
          simp only [buildJointSpace, hj]
          exact iff_of_true trivial ⟨j, List.mem_cons_self j rest, hj⟩
      | some d =>
          simp only [buildJointSpace, hj, Option.map_eq_none', List.mem_cons]
          rw [ih]
          constructor
          · rintro ⟨x, hx, hdx⟩
            exact ⟨x, Or.inr hx, hdx⟩
          · rintro ⟨x, hx | hx, hdx⟩
            · subst hx
              rw [hj] at hdx
              exact absurd hdx (by simp)
            · exact ⟨x, hx, hdx⟩

theorem buildJointSpace_eq_some {joints : List Joint} {l : List (BoundVal × BoundVal)}
    (h : buildJointSpace joints = some l) :
    l = joints.flatMap fun j => (jointDims j).getD [] := by
  induction joints generalizing l with
  | nil => simp [buildJointSpace] at h; simp [h]
  | cons j rest ih =>
      cases hj : jointDims j with
      | none => simp [buildJointSpace, hj] at h
      | some d =>
          simp only [buildJointSpace, hj, Option.map_eq_some'] at h
          obtain ⟨tl, htl, rfl⟩ := h
          simp [List.flatMap_cons, hj, ih htl]

theorem jointDims_eq_none {j : Joint} :
    jointDims j = none ↔
      (j.jtype = .REVOLUTE ∨ j.jtype = .PRISMATIC) ∧ j.position_bounded = false := by
  obtain ⟨t, b, mn, mx⟩ := j
  cases t <;> cases b <;> simp [jointDims]

/-- Claim C4, counterexample: the claim says any joint of a type other than
revolute, prismatic or planar makes state-space construction fail and
`plan` return INITIALIZATION_FAIL; on a group whose single active joint has
such a type, `setupStateSpace` succeeds (the joint is silently skipped) and
`plan` proceeds past initialization, returning NO_IK_SOLUTION here. -/
theorem C4_counterexample :
    jOther.jtype ≠ JointType.REVOLUTE ∧ jOther.jtype ≠ JointType.PRISMATIC ∧
    jOther.jtype ≠ JointType.PLANAR ∧
    setupStateSpace 1 [jOther] = some ([(.rat 0, .rat 1)], []) ∧
    (plan envOtherJoint reqEmptyStart resEmpty).1 = Result.NO_IK_SOLUTION := by
  decide

/-- Claim C4, amended: state-space construction adds one bounded dimension
per position-bounded revolute or prismatic joint, three dimensions (two
with range [-1e3, 1e3] and one with range [-pi, pi]) per planar joint, and
contributes no dimensions for joints of any other type (they are skipped,
not an error); it fails — and `plan` returns INITIALIZATION_FAIL — exactly
when some revolute or prismatic active joint lacks position bounds. -/
theorem C4_amended_theorem (theta : ℚ) (joints : List Joint) {K P : Type} :
    (setupStateSpace theta joints = none ↔
      ∃ j ∈ joints, (j.jtype = .REVOLUTE ∨ j.jtype = .PRISMATIC) ∧
        j.position_bounded = false)
    ∧ (∀ sp, setupStateSpace theta joints = some sp →
        sp.1 = [(.rat 0, .rat theta)] ∧
        sp.2 = joints.flatMap fun j =>
          match j.jtype with
          | .PLANAR =>
              [(.rat (-1000), .rat 1000), (.rat (-1000), .rat 1000), (.negPi, .pi)]
          | .REVOLUTE | .PRISMATIC =>
              if j.position_bounded then
                [(.rat j.min_position, .rat j.max_position)]
              else []
          | .OTHER => [])
    ∧ (∀ (env : PlanEnv K P) (req : APPlanningRequest P) (res : APPlanningResponse),
        (plan env req res).1 = Result.INITIALIZATION_FAIL ↔
          setupStateSpace req.theta env.joints = none) := by
  refine ⟨?_, ?_, ?_⟩
  · simp only [setupStateSpace, Option.map_eq_none', buildJointSpace_eq_none,
      jointDims_eq_none]
  · intro sp hsp
    simp only [setupStateSpace, Option.map_eq_some'] at hsp
    obtain ⟨jd, hjd, hsp⟩ := hsp
    subst hsp
    refine ⟨rfl, ?_⟩
    rw [buildJointSpace_eq_some hjd]
    have hfun : (fun j : Joint => (jointDims j).getD []) =
        (fun j : Joint =>
          match j.jtype with
          | .PLANAR =>
              [((.rat (-1000) : BoundVal), (.rat 1000 : BoundVal)),
               (.rat (-1000), .rat 1000), (.negPi, .pi)]
          | .REVOLUTE | .PRISMATIC =>
              if j.position_bounded then
                [(.rat j.min_position, .rat j.max_position)]
              else []
          | .OTHER => []) := by
      funext j
      obtain ⟨t, b, mn, mx⟩ := j
      cases t <;> cases b <;> rfl
    rw [hfun]
  · intro env req res
    cases hs : setupStateSpace req.theta env.joints with
    | none => simp [plan, hs]
    | some sp =>
        cases hc : findConfigs env req with
        | none => simp [plan, hs, hc]
        | some cfgs =>
            cases hv : env.solve cfgs.1 cfgs.2 with
            | none => simp [plan, hs, hc, hv]
            | some sol => simp [plan, hs, hc, hv]

/-- Claim C4, witness: a planar joint plus a bounded revolute joint build
the expected dimensions, and an unbounded revolute joint fails. -/
theorem C4_witness :
    (setupStateSpace 1 [jRevUnbounded] = none ↔
      ∃ j ∈ [jRevUnbounded], (j.jtype = .REVOLUTE ∨ j.jtype = .PRISMATIC) ∧
        j.position_bounded = false) ∧
    (∀ sp, setupStateSpace 1 [jPlanarEx, jRevBounded] = some sp →
        sp.1 = [(.rat 0, .rat 1)] ∧
        sp.2 = [jPlanarEx, jRevBounded].flatMap fun j =>
          match j.jtype with
          | .PLANAR =>
              [(.rat (-1000), .rat 1000), (.rat (-1000), .rat 1000), (.negPi, .pi)]
          | .REVOLUTE | .PRISMATIC =>
              if j.position_bounded then
                [(.rat j.min_position, .rat j.max_position)]
              else []
          | .OTHER => []) :=
  ⟨(C4_amended_theorem 1 [jRevUnbounded] (K := Unit) (P := Unit)).1,
   (C4_amended_theorem 1 [jPlanarEx, jRevBounded] (K := Unit) (P := Unit)).2.1⟩

/-- Claim C1, counterexample: a request whose non-empty start joint state
has the wrong size does not force NO_IK_SOLUTION — here `plan` returns
SUCCESS, because the mismatch merely routes planning through the
Cartesian-start mode. -/
theorem C1_counterexample :
    reqWrongLen.start_joint_state ≠ [] ∧
    reqWrongLen.start_joint_state.length ≠ envIKUnit.variableCount ∧
    (plan envIKUnit reqWrongLen resEmpty).1 = Result.SUCCESS := by
  set_option maxRecDepth 4000 in decide

/-- Claim C1, amended: a start joint state whose size differs from the
joint group's variable count is not itself an error; `plan` treats the
request as Cartesian-start and runs start-and-goal candidate generation,
returning NO_IK_SOLUTION exactly when state-space setup succeeds and that
generation produces no usable pools. -/
theorem C1_amended_theorem {K P : Type} (env : PlanEnv K P)
    (req : APPlanningRequest P) (res : APPlanningResponse)
    (h : req.start_joint_state.length ≠ env.variableCount) :
    (plan env req res).1 = Result.NO_IK_SOLUTION ↔
      (setupStateSpace req.theta env.joints ≠ none ∧
       findStartGoalStates env req 5 10 env.defaultState = none) := by
  cases hs : setupStateSpace req.theta env.joints with
  | none => simp [plan, hs]
  | some sp =>
      have hfc : findConfigs env req = findStartGoalStates env req 5 10 env.defaultState := by
        simp [findConfigs, h]
      cases hc : findStartGoalStates env req 5 10 env.defaultState with
      | none => simp [plan, hs, hfc, hc]
      | some cfgs =>
          cases hv : env.solve cfgs.1 cfgs.2 with
          | none => simp [plan, hs, hfc, hc, hv]
          | some sol => simp [plan, hs, hfc, hc, hv]

/-- Claim C1, witness: with an always-failing IK oracle and a wrong-size
start joint state, `plan` returns NO_IK_SOLUTION and the equivalence of the
amended claim holds at this input. -/
theorem C1_witness :
    reqWrongLen.start_joint_state.length ≠ envNoIK.variableCount ∧
    ((plan envNoIK reqWrongLen resEmpty).1 = Result.NO_IK_SOLUTION ↔
      (setupStateSpace reqWrongLen.theta envNoIK.joints ≠ none ∧
       findStartGoalStates envNoIK reqWrongLen 5 10 envNoIK.defaultState = none)) :=
  ⟨by decide, C1_amended_theorem envNoIK reqWrongLen resEmpty (by decide)⟩

/-- Claim C3: whenever the external planner reports no solution, `plan`
returns PLANNING_FAIL and the response is exactly the reset state set at
the start of the call: empty joint names, empty waypoints,
`trajectory_is_valid = false`, `percentage_complete = 0`. -/
theorem C3_theorem {K P : Type} (env : PlanEnv K P) (req : APPlanningRequest P)
    (res : APPlanningResponse)
    (sp : List (BoundVal × BoundVal) × List (BoundVal × BoundVal))
    (cfgs : List (List ℚ) × List (List ℚ))
    (hs : setupStateSpace req.theta env.joints = some sp)
    (hc : findConfigs env req = some cfgs)
    (hv : env.solve cfgs.1 cfgs.2 = none) :
    plan env req res = (Result.PLANNING_FAIL, resetResponse res) ∧
    (plan env req res).2.joint_names = [] ∧
    (plan env req res).2.points = [] ∧
    (plan env req res).2.trajectory_is_valid = false ∧
    (plan env req res).2.percentage_complete = 0 := by
  have hp : plan env req res = (Result.PLANNING_FAIL, resetResponse res) := by
    simp [plan, hs, hc, hv]
  rw [hp]
  simp [resetResponse]

/-- Claim C3, witness: a concrete run in which candidate generation
succeeds but the planner fails. -/
theorem C3_witness :
    plan envPlanFail reqMatched resEmpty = (Result.PLANNING_FAIL, resetResponse resEmpty) ∧
    (plan envPlanFail reqMatched resEmpty).2.joint_names = [] ∧
    (plan envPlanFail reqMatched resEmpty).2.points = [] ∧
    (plan envPlanFail reqMatched resEmpty).2.trajectory_is_valid = false ∧
    (plan envPlanFail reqMatched resEmpty).2.percentage_complete = 0 :=
  C3_theorem envPlanFail reqMatched resEmpty ([(.rat 0, .rat 1)], [])
    ([[0, 0]], [[0, 0]]) (by decide) (by decide) rfl

/-- Claim C10: when the external planner reports a solution whose path has
fewer than 2 states, `plan` still returns SUCCESS and trajectory extraction
writes nothing, so the response stays in its reset state. -/
theorem C10_theorem {K P : Type} (env : PlanEnv K P) (req : APPlanningRequest P)
    (res : APPlanningResponse)
    (sp : List (BoundVal × BoundVal) × List (BoundVal × BoundVal))
    (cfgs : List (List ℚ) × List (List ℚ)) (sol : PathGeometric)
    (hs : setupStateSpace req.theta env.joints = some sp)
    (hc : findConfigs env req = some cfgs)
    (hv : env.solve cfgs.1 cfgs.2 = some sol)
    (hshort : sol.states.length < 2) :
    plan env req res = (Result.SUCCESS, resetResponse res) ∧
    (plan env req res).2.joint_names = [] ∧
    (plan env req res).2.points = [] ∧
    (plan env req res).2.trajectory_is_valid = false ∧
    (plan env req res).2.percentage_complete = 0 := by
  have hpop : populateResponse env.isValid env.variableNames req.theta sol
      (resetResponse res) = resetResponse res := by
    simp [populateResponse, hshort]
  have hp : plan env req res = (Result.SUCCESS, resetResponse res) := by
    simp [plan, hs, hc, hv, hpop]
  rw [hp]
  simp [resetResponse]

theorem increaseStateList_cases (env : PlanEnv K P) (pose : P) (k : K)
    (cfg : List (List ℚ)) :
    (increaseStateList env pose k cfg).2 = cfg ∨
    ∃ jv, checkDuplicateState env.dupDist env.dupThreshold cfg jv = true ∧
      (increaseStateList env pose k cfg).2 = cfg ++ [jv] := by
  by_cases h2 : (env.ikSolve k pose).2 = true
  · by_cases hd : checkDuplicateState env.dupDist env.dupThreshold cfg
        (env.copyPositions (env.ikSolve k pose).1) = true
    · right
      exact ⟨env.copyPositions (env.ikSolve k pose).1, hd,
        by simp [increaseStateList, h2, hd]⟩
    · left
      simp [increaseStateList, h2, hd]
  · left
    simp [increaseStateList, h2]

theorem increaseStateList_length (env : PlanEnv K P) (pose : P) (k : K)
    (cfg : List (List ℚ)) :
    cfg.length ≤ (increaseStateList env pose k cfg).2.length ∧
    (increaseStateList env pose k cfg).2.length ≤ cfg.length + 1 := by
  rcases increaseStateList_cases env pose k cfg with h | ⟨jv, _, h⟩ <;> simp [h]

theorem increaseStateList_pairwise (env : PlanEnv K P) (pose : P) (k : K)
    (cfg : List (List ℚ))
    (h : cfg.Pairwise fun a b => env.dupThreshold ≤ env.dupDist a b) :
    ((increaseStateList env pose k cfg).2).Pairwise
      fun a b => env.dupThreshold ≤ env.dupDist a b := by
  rcases increaseStateList_cases env pose k cfg with hc | ⟨jv, hdup, hc⟩
  · rw [hc]; exact h
  · rw [hc, List.pairwise_append]
    refine ⟨h, List.pairwise_singleton _ _, ?_⟩
    intro a ha b hb
    simp only [List.mem_singleton] at hb
    subst hb
    unfold checkDuplicateState at hdup
    exact of_decide_eq_true (List.all_eq_true.mp hdup a ha)

theorem goalLoop_counter (env : PlanEnv K P) (num_goal : ℕ) (pose : P) :
    ∀ (fuel i : ℕ) (k : K) (cfg : List (List ℚ)),
      (goalLoop env num_goal pose fuel i k cfg).1 ≤ i + fuel := by
  intro fuel
  induction fuel with
  | zero =>
      intro i k cfg
      exact Nat.le_add_right i 0
  | succ f ih =>
      intro i k cfg
      simp only [goalLoop]
      by_cases h : cfg.length < num_goal
      · simp only [if_pos h]
        exact le_trans (ih _ _ _) (by omega)
      · simp only [if_neg h]
        exact Nat.le_add_right i (f + 1)

theorem goalLoop_quota (env : PlanEnv K P) (num_goal : ℕ) (pose : P)
    (fuel i : ℕ) (k : K) (cfg : List (List ℚ)) (h : num_goal ≤ cfg.length) :
    goalLoop env num_goal pose fuel i k cfg = (i, cfg) := by
  cases fuel with
  | zero => rfl
  | succ f => simp [goalLoop, Nat.not_lt.mpr h]

theorem goalLoop_length (env : PlanEnv K P) (num_goal : ℕ) (pose : P) :
    ∀ (fuel i : ℕ) (k : K) (cfg : List (List ℚ)), cfg.length ≤ num_goal →
      (goalLoop env num_goal pose fuel i k cfg).2.length ≤ num_goal := by
  intro fuel
  induction fuel with
  | zero => intro i k cfg h; exact h
  | succ f ih =>
      intro i k cfg h
      simp only [goalLoop]
      by_cases hlt : cfg.length < num_goal
      · simp only [if_pos hlt]
        apply ih
        have := (increaseStateList_length env pose k cfg).2
        omega
      · simp only [if_neg hlt]
        exact h

theorem goalLoop_pairwise (env : PlanEnv K P) (num_goal : ℕ) (pose : P) :
    ∀ (fuel i : ℕ) (k : K) (cfg : List (List ℚ)),
      cfg.Pairwise (fun a b => env.dupThreshold ≤ env.dupDist a b) →
      ((goalLoop env num_goal pose fuel i k cfg).2).Pairwise
        (fun a b => env.dupThreshold ≤ env.dupDist a b) := by
  intro fuel
  induction fuel with
  | zero => intro i k cfg h; exact h
  | succ f ih =>
      intro i k cfg h
      simp only [goalLoop]
      by_cases hlt : cfg.length < num_goal
      · simp only [if_pos hlt]
        exact ih _ _ _ (increaseStateList_pairwise env pose k cfg h)
      · simp only [if_neg hlt]
        exact h

theorem findGoalStates_eq (env : PlanEnv K P) (req : APPlanningRequest P)
    (num_goal : ℕ) (hlen : req.start_joint_state.length = env.variableCount) :
    findGoalStates env req num_goal =
      (if (goalLoop env num_goal env.goalPoseMsg (2 * num_goal) 0
            (env.setPositions req.start_joint_state) []).2.length > 0 then
        some ([req.start_joint_state],
          (goalLoop env num_goal env.goalPoseMsg (2 * num_goal) 0
            (env.setPositions req.start_joint_state) []).2)
      else none) := by
  unfold findGoalStates
  rw [if_neg (not_not_intro hlen)]

theorem sgLoop_counter (env : PlanEnv K P) (startPose goalPose : P)
    (num_start num_goal : ℕ) :
    ∀ (fuel i : ℕ) (k : K) (pools : List (List ℚ) × List (List ℚ)),
      (sgLoop env startPose goalPose num_start num_goal fuel i k pools).1 ≤ i + fuel := by
  intro fuel
  induction fuel with
  | zero =>
      intro i k pools
      exact Nat.le_add_right i 0
  | succ f ih =>
      intro i k pools
      simp only [sgLoop]
      by_cases hc : pools.1.length < num_start ∨ pools.2.length < num_goal
      · simp only [if_pos hc]
        exact le_trans (ih _ _ _) (by omega)
      · simp only [if_neg hc]
        exact Nat.le_add_right i (f + 1)

theorem sgLoop_quota (env : PlanEnv K P) (startPose goalPose : P)
    (num_start num_goal : ℕ) (fuel i : ℕ) (k : K)
    (pools : List (List ℚ) × List (List ℚ))
    (h1 : num_start ≤ pools.1.length) (h2 : num_goal ≤ pools.2.length) :
    sgLoop env startPose goalPose num_start num_goal fuel i k pools = (i, pools) := by
  have hc : ¬(pools.1.length < num_start ∨ pools.2.length < num_goal) := by omega
  cases fuel with
  | zero => rfl
  | succ f => simp only [sgLoop, if_neg hc]

theorem sgLoop_lengths (env : PlanEnv K P) (startPose goalPose : P)
    (num_start num_goal : ℕ) :
    ∀ (fuel i : ℕ) (k : K) (pools : List (List ℚ) × List (List ℚ)),
      pools.1.length ≤ num_start → pools.2.length ≤ num_goal →
      (sgLoop env startPose goalPose num_start num_goal fuel i k pools).2.1.length ≤ num_start ∧
      (sgLoop env startPose goalPose num_start num_goal fuel i k pools).2.2.length ≤ num_goal := by
  intro fuel
  induction fuel with
  | zero => intro i k pools h1 h2; exact ⟨h1, h2⟩
  | succ f ih =>
      intro i k pools h1 h2
      simp only [sgLoop]
      by_cases hc : pools.1.length < num_start ∨ pools.2.length < num_goal
      · simp only [if_pos hc]
        apply ih
        · by_cases hs : pools.1.length < num_start
          · simp only [if_pos hs]
            have := (increaseStateList_length env startPose (env.randomState i) pools.1).2
            omega
          · simp only [if_neg hs]
            exact h1
        · by_cases hs : pools.1.length < num_start
          · simp only [if_pos hs]
            by_cases hg : pools.2.length < num_goal
            · simp only [if_pos hg]
              have := (increaseStateList_length env goalPose
                (increaseStateList env startPose (env.randomState i) pools.1).1 pools.2).2
              omega
            · simp only [if_neg hg]
              exact h2
          · simp only [if_neg hs]
            by_cases hg : pools.2.length < num_goal
            · simp only [if_pos hg]
              show (increaseStateList env goalPose (env.randomState i) pools.2).2.length ≤ num_goal
              have := (increaseStateList_length env goalPose (env.randomState i) pools.2).2
              omega
            · simp only [if_neg hg]
              exact h2
      · simp only [if_neg hc]
        exact ⟨h1, h2⟩

theorem sgLoop_pairwise (env : PlanEnv K P) (startPose goalPose : P)
    (num_start num_goal : ℕ) :
    ∀ (fuel i : ℕ) (k : K) (pools : List (List ℚ) × List (List ℚ)),
      pools.1.Pairwise (fun a b => env.dupThreshold ≤ env.dupDist a b) →
      pools.2.Pairwise (fun a b => env.dupThreshold ≤ env.dupDist a b) →
      (sgLoop env startPose goalPose num_start num_goal fuel i k pools).2.1.Pairwise
        (fun a b => env.dupThreshold ≤ env.dupDist a b) ∧
      (sgLoop env startPose goalPose num_start num_goal fuel i k pools).2.2.Pairwise
        (fun a b => env.dupThreshold ≤ env.dupDist a b) := by
  intro fuel
  induction fuel with
  | zero => intro i k pools h1 h2; exact ⟨h1, h2⟩
  | succ f ih =>
      intro i k pools h1 h2
      simp only [sgLoop]
      by_cases hc : pools.1.length < num_start ∨ pools.2.length < num_goal
      · simp only [if_pos hc]
        apply ih
        · by_cases hs : pools.1.length < num_start
          · simp only [if_pos hs]
            exact increaseStateList_pairwise env startPose (env.randomState i) pools.1 h1
          · simp only [if_neg hs]
            exact h1
        · by_cases hg : pools.2.length < num_goal
          · simp only [if_pos hg]
            exact increaseStateList_pairwise env goalPose _ pools.2 h2
          · simp only [if_neg hg]
            exact h2
      · simp only [if_neg hc]
        exact ⟨h1, h2⟩

theorem findStartGoalStates_eq (env : PlanEnv K P) (req : APPlanningRequest P)
    (num_start num_goal : ℕ) (k0 : K)
    (h1 : 1 ≤ num_start) (h2 : 1 ≤ num_goal) :
    findStartGoalStates env req num_start num_goal k0 =
      (if (sgLoop env req.start_pose env.goalPoseMsg num_start num_goal
            (2 * (num_goal + num_start)) 0 k0 ([], [])).2.1.length > 0 ∧
          (sgLoop env req.start_pose env.goalPoseMsg num_start num_goal
            (2 * (num_goal + num_start)) 0 k0 ([], [])).2.2.length > 0 then
        some (sgLoop env req.start_pose env.goalPoseMsg num_start num_goal
          (2 * (num_goal + num_start)) 0 k0 ([], [])).2
      else none) := by
  unfold findStartGoalStates
  rw [if_neg (by omega)]

theorem appendLoop_all_valid (valid : PathState → Bool) (theta : ℚ) (n : ℕ) :
    ∀ (l : List PathState) (r : APPlanningResponse), (∀ s ∈ l, valid s = true) →
      appendLoop valid theta n l r =
        ({ r with points := r.points ++ l.map (extractPoint n) }, true) := by
  intro l
  induction l with
  | nil =>
      intro r _
      simp [appendLoop]
  | cons s rest ih =>
      intro r h
      have hs : valid s = true := h s (List.mem_cons_self s rest)
      simp only [appendLoop, hs, if_true]
      rw [ih _ (fun x hx => h x (List.mem_cons_of_mem s hx))]
      simp [List.append_assoc]

theorem appendLoop_first_invalid (valid : PathState → Bool) (theta : ℚ) (n : ℕ) :
    ∀ (pre : List PathState) (bad : PathState) (rest : List PathState)
      (r : APPlanningResponse),
      (∀ s ∈ pre, valid s = true) → valid bad = false →
      appendLoop valid theta n (pre ++ bad :: rest) r =
        ({ r with points := r.points ++ pre.map (extractPoint n),
                  trajectory_is_valid := false,
                  percentage_complete := bad.theta / theta }, false) := by
  intro pre
  induction pre with
  | nil =>
      intro bad rest r _ hbad
      simp [appendLoop, hbad]
  | cons s pp ih =>
      intro bad rest r h hbad
      have hs : valid s = true := h s (List.mem_cons_self s pp)
      simp only [List.cons_append, appendLoop, hs, if_true, List.append_eq]
      rw [ih bad rest _ (fun x hx => h x (List.mem_cons_of_mem s hx)) hbad]
      simp [List.append_assoc]

/-- Claim C2: during trajectory extraction the interpolated states are
re-validated in order; at the first invalid state extraction stops with
`trajectory_is_valid = false`, `percentage_complete` equal to that state's
screw progress divided by the requested theta, and the response keeps
exactly the waypoints of the already-validated prefix. -/
theorem C2_theorem (valid : PathState → Bool) (names : List String) (theta : ℚ)
    (sol : PathGeometric) (res : APPlanningResponse)
    (pre : List PathState) (bad : PathState) (rest : List PathState)
    (hsplit : sol.interpolated = pre ++ bad :: rest)
    (hpre : ∀ s ∈ pre, valid s = true) (hbad : valid bad = false)
    (hlen : 2 ≤ sol.states.length) :
    populateResponse valid names theta sol res =
      { res with joint_names := names,
                 points := res.points ++ pre.map (extractPoint names.length),
                 trajectory_is_valid := false,
                 percentage_complete := bad.theta / theta } := by
  have hnot : ¬ sol.states.length < 2 := by omega
  simp only [populateResponse, if_neg hnot]
  rw [hsplit, appendLoop_first_invalid valid theta names.length pre bad rest _ hpre hbad]
  simp

/-- Claim C2, witness: a two-state interpolated path whose second state is
invalid keeps exactly the first state's waypoint and records the invalid
state's progress. -/
theorem C2_witness :
    populateResponse vHalf ["j1", "j2"] 1 solMixed resEmpty =
      { resEmpty with joint_names := ["j1", "j2"],
                      points := resEmpty.points ++ [stZero].map (extractPoint ["j1", "j2"].length),
                      trajectory_is_valid := false,
                      percentage_complete := stHalf.theta / 1 } :=
  C2_theorem vHalf ["j1", "j2"] 1 solMixed resEmpty [stZero] stHalf [] rfl
    (by
      intro s hs
      simp only [List.mem_singleton] at hs
      subst hs
      norm_num [vHalf, stZero])
    (by norm_num [vHalf, stHalf])
    (by norm_num [solMixed])

/-- Claim C5: when every interpolated state is valid, the response is
marked valid exactly when the final state's screw progress is within 0.01
of the requested theta, and in either case the completion ratio is the
final progress over theta and the path length is the solver-reported
length. -/
theorem C5_theorem (valid : PathState → Bool) (names : List String) (theta : ℚ)
    (sol : PathGeometric) (res : APPlanningResponse) (lastS : PathState)
    (hvalid : ∀ s ∈ sol.interpolated, valid s = true)
    (hlast : sol.interpolated.getLast? = some lastS)
    (hlen : 2 ≤ sol.states.length) :
    populateResponse valid names theta sol res =
      { res with joint_names := names,
                 points := res.points ++ sol.interpolated.map (extractPoint names.length),
                 trajectory_is_valid := decide (|theta - lastS.theta| ≤ 1 / 100),
                 percentage_complete := lastS.theta / theta,
                 path_length := sol.pathLength } ∧
    ((populateResponse valid names theta sol res).trajectory_is_valid = true ↔
      |theta - lastS.theta| ≤ 1 / 100) := by
  have hnot : ¬ sol.states.length < 2 := by omega
  have hmain : populateResponse valid names theta sol res =
      { res with joint_names := names,
                 points := res.points ++ sol.interpolated.map (extractPoint names.length),
                 trajectory_is_valid := decide (|theta - lastS.theta| ≤ 1 / 100),
                 percentage_complete := lastS.theta / theta,
                 path_length := sol.pathLength } := by
    simp only [populateResponse, if_neg hnot]
    rw [appendLoop_all_valid valid theta names.length sol.interpolated _ hvalid]
    simp [hlast]
  refine ⟨hmain, ?_⟩
  rw [hmain]
  simp

/-- Claim C5, witness: a fully valid walk whose final state sits half-way
along the screw is marked invalid (0.5 is not within 0.01 of 1) with
completion one half. -/
theorem C5_witness :
    populateResponse (fun _ => true) ["j1", "j2"] 1 solMixed resEmpty =
      { resEmpty with joint_names := ["j1", "j2"],
                      points := resEmpty.points ++
                        solMixed.interpolated.map (extractPoint ["j1", "j2"].length),
                      trajectory_is_valid := decide (|(1 : ℚ) - stHalf.theta| ≤ 1 / 100),
                      percentage_complete := stHalf.theta / 1,
                      path_length := solMixed.pathLength } ∧
    ((populateResponse (fun _ => true) ["j1", "j2"] 1 solMixed resEmpty).trajectory_is_valid = true ↔
      |(1 : ℚ) - stHalf.theta| ≤ 1 / 100) :=
  C5_theorem (fun _ => true) ["j1", "j2"] 1 solMixed resEmpty stHalf
    (by intro s _; rfl) rfl (by norm_num [solMixed])

/-- Claim C10, witness: a concrete run in which the planner returns a
single-state path. -/
theorem C10_witness :
    plan envShortPath reqMatched resEmpty = (Result.SUCCESS, resetResponse resEmpty) ∧
    (plan envShortPath reqMatched resEmpty).2.joint_names = [] ∧
    (plan envShortPath reqMatched resEmpty).2.points = [] ∧
    (plan envShortPath reqMatched resEmpty).2.trajectory_is_valid = false ∧
    (plan envShortPath reqMatched resEmpty).2.percentage_complete = 0 :=
  C10_theorem envShortPath reqMatched resEmpty ([(.rat 0, .rat 1)], [])
    ([[0, 0]], [[0, 0]]) shortPath (by decide) (by decide) rfl (by decide)

/-- Claim C6: in start-given mode, goal generation runs at most
`2 * num_goal` iterations (the loop counter `i` never exceeds that bound),
an IK result is kept only when it passes the duplicate check against the
already-accepted pool, the loop stops as soon as `num_goal` goals are
collected (so the pool never exceeds `num_goal`), and `findGoalStates`
fails exactly when the goal pool ends empty; on success the start pool is
exactly the given configuration and the goal pool is the loop's pool. -/
theorem C6_theorem {K P : Type} (env : PlanEnv K P) (req : APPlanningRequest P)
    (num_goal : ℕ) (L : ℕ × List (List ℚ))
    (hlen : req.start_joint_state.length = env.variableCount)
    (hL : goalLoop env num_goal env.goalPoseMsg (2 * num_goal) 0
        (env.setPositions req.start_joint_state) [] = L) :
    L.1 ≤ 2 * num_goal ∧
    L.2.length ≤ num_goal ∧
    (∀ (fuel i : ℕ) (k : K) (cfg : List (List ℚ)), num_goal ≤ cfg.length →
      goalLoop env num_goal env.goalPoseMsg fuel i k cfg = (i, cfg)) ∧
    (∀ (pose : P) (k : K) (cfg : List (List ℚ)),
      (increaseStateList env pose k cfg).2 = cfg ∨
      ∃ jv, checkDuplicateState env.dupDist env.dupThreshold cfg jv = true ∧
        (increaseStateList env pose k cfg).2 = cfg ++ [jv]) ∧
    (findGoalStates env req num_goal = none ↔ L.2 = []) ∧
    (∀ pools, findGoalStates env req num_goal = some pools →
      pools.1 = [req.start_joint_state] ∧ pools.2 = L.2) := by
  refine ⟨?_, ?_, ?_, ?_, ?_, ?_⟩
  · rw [← hL]
    simpa using goalLoop_counter env num_goal env.goalPoseMsg (2 * num_goal) 0 _ _
  · rw [← hL]
    exact goalLoop_length env num_goal env.goalPoseMsg _ _ _ _ (by simp)
  · exact fun fuel i k cfg h => goalLoop_quota env num_goal env.goalPoseMsg fuel i k cfg h
  · exact fun pose k cfg => increaseStateList_cases env pose k cfg
  · rw [findGoalStates_eq env req num_goal hlen, hL]
    by_cases hp : L.2.length > 0
    · rw [if_pos hp]
      exact iff_of_false (by simp) (by simpa using List.length_pos.mp hp)
    · rw [if_neg hp]
      exact iff_of_true rfl (List.length_eq_zero.mp (by omega))
  · intro pools h
    rw [findGoalStates_eq env req num_goal hlen, hL] at h
    by_cases hp : L.2.length > 0
    · rw [if_pos hp] at h
      injection h with h
      subst h
      exact ⟨rfl, rfl⟩
    · rw [if_neg hp] at h
      exact absurd h (by simp)

/-- Claim C6, witness: with an always-succeeding IK oracle returning a
fixed configuration, the loop runs all 20 iterations, keeps a single goal
(all later IK results are duplicates), and `findGoalStates` succeeds. -/
theorem C6_witness :
    (20 : ℕ) ≤ 2 * 10 ∧
    ([[(0 : ℚ), 0]] : List (List ℚ)).length ≤ 10 ∧
    (∀ (fuel i : ℕ) (k : Unit) (cfg : List (List ℚ)), 10 ≤ cfg.length →
      goalLoop envIKUnit 10 envIKUnit.goalPoseMsg fuel i k cfg = (i, cfg)) ∧
    (∀ (pose : Unit) (k : Unit) (cfg : List (List ℚ)),
      (increaseStateList envIKUnit pose k cfg).2 = cfg ∨
      ∃ jv, checkDuplicateState envIKUnit.dupDist envIKUnit.dupThreshold cfg jv = true ∧
        (increaseStateList envIKUnit pose k cfg).2 = cfg ++ [jv]) ∧
    (findGoalStates envIKUnit reqMatched 10 = none ↔ ([[(0 : ℚ), 0]] : List (List ℚ)) = []) ∧
    (∀ pools, findGoalStates envIKUnit reqMatched 10 = some pools →
      pools.1 = [reqMatched.start_joint_state] ∧ pools.2 = [[(0 : ℚ), 0]]) :=
  C6_theorem envIKUnit reqMatched 10 (20, [[0, 0]]) (by decide) (by decide)

/-- Claim C7: in start-and-goal mode, generation interleaves start and goal
attempts for at most `2 * (num_start + num_goal)` iterations, stops as soon
as both quotas are met, keeps each pool within its quota, and
`findStartGoalStates` fails exactly when the start pool or the goal pool
ends empty; on success the returned pools are the loop's pools. -/
theorem C7_theorem {K P : Type} (env : PlanEnv K P) (req : APPlanningRequest P)
    (num_start num_goal : ℕ) (k0 : K)
    (SG : ℕ × (List (List ℚ) × List (List ℚ)))
    (h1 : 1 ≤ num_start) (h2 : 1 ≤ num_goal)
    (hSG : sgLoop env req.start_pose env.goalPoseMsg num_start num_goal
        (2 * (num_goal + num_start)) 0 k0 ([], []) = SG) :
    SG.1 ≤ 2 * (num_goal + num_start) ∧
    SG.2.1.length ≤ num_start ∧ SG.2.2.length ≤ num_goal ∧
    (∀ (fuel i : ℕ) (k : K) (pools : List (List ℚ) × List (List ℚ)),
      num_start ≤ pools.1.length → num_goal ≤ pools.2.length →
      sgLoop env req.start_pose env.goalPoseMsg num_start num_goal fuel i k pools = (i, pools)) ∧
    (findStartGoalStates env req num_start num_goal k0 = none ↔
      (SG.2.1 = [] ∨ SG.2.2 = [])) ∧
    (∀ pools, findStartGoalStates env req num_start num_goal k0 = some pools →
      pools = SG.2) := by
  refine ⟨?_, ?_, ?_, ?_, ?_, ?_⟩
  · rw [← hSG]
    simpa using sgLoop_counter env req.start_pose env.goalPoseMsg num_start num_goal
      (2 * (num_goal + num_start)) 0 _ _
  · rw [← hSG]
    exact (sgLoop_lengths env req.start_pose env.goalPoseMsg num_start num_goal
      _ _ _ _ (by simp) (by simp)).1
  · rw [← hSG]
    exact (sgLoop_lengths env req.start_pose env.goalPoseMsg num_start num_goal
      _ _ _ _ (by simp) (by simp)).2
  · exact fun fuel i k pools ha hb =>
      sgLoop_quota env req.start_pose env.goalPoseMsg num_start num_goal fuel i k pools ha hb
  · rw [findStartGoalStates_eq env req num_start num_goal k0 h1 h2, hSG]
    by_cases hp : SG.2.1.length > 0 ∧ SG.2.2.length > 0
    · rw [if_pos hp]
      refine iff_of_false (by simp) ?_
      rintro (h | h)
      · rw [h] at hp
        simp at hp
      · rw [h] at hp
        simp at hp
    · rw [if_neg hp]
      refine iff_of_true rfl ?_
      by_cases ha : SG.2.1.length > 0
      · right
        refine List.length_eq_zero.mp ?_
        omega
      · left
        exact List.length_eq_zero.mp (by omega)
  · intro pools h
    rw [findStartGoalStates_eq env req num_start num_goal k0 h1 h2, hSG] at h
    by_cases hp : SG.2.1.length > 0 ∧ SG.2.2.length > 0
    · rw [if_pos hp] at h
      injection h with h
      exact h.symm
    · rw [if_neg hp] at h
      exact absurd h (by simp)

/-- Claim C7, witness: with an always-failing IK oracle the loop runs all
30 iterations, both pools end empty, and `findStartGoalStates` fails. -/
theorem C7_witness :
    (30 : ℕ) ≤ 2 * (10 + 5) ∧
    ([] : List (List ℚ)).length ≤ 5 ∧ ([] : List (List ℚ)).length ≤ 10 ∧
    (∀ (fuel i : ℕ) (k : Unit) (pools : List (List ℚ) × List (List ℚ)),
      5 ≤ pools.1.length → 10 ≤ pools.2.length →
      sgLoop envNoIK reqWrongLen.start_pose envNoIK.goalPoseMsg 5 10 fuel i k pools = (i, pools)) ∧
    (findStartGoalStates envNoIK reqWrongLen 5 10 () = none ↔
      (([] : List (List ℚ)) = [] ∨ ([] : List (List ℚ)) = [])) ∧
    (∀ pools, findStartGoalStates envNoIK reqWrongLen 5 10 () = some pools →
      pools = (([] : List (List ℚ)), ([] : List (List ℚ)))) :=
  C7_theorem envNoIK reqWrongLen 5 10 () (30, ([], [])) (by decide) (by decide)
    (by set_option maxRecDepth 8000 in decide)

/-- Claim C9: every candidate pool produced by either generation mode is
pairwise non-duplicate: any two configurations in the same pool are at
least the duplicate-distance threshold apart, because a new IK solution is
appended only after passing the duplicate check against the whole pool. -/
theorem C9_theorem {K P : Type} (env : PlanEnv K P) (req : APPlanningRequest P)
    (num_start num_goal : ℕ) (k0 : K)
    (pools : List (List ℚ) × List (List ℚ)) :
    (findGoalStates env req num_goal = some pools →
      pools.1.Pairwise (fun a b => env.dupThreshold ≤ env.dupDist a b) ∧
      pools.2.Pairwise (fun a b => env.dupThreshold ≤ env.dupDist a b)) ∧
    (findStartGoalStates env req num_start num_goal k0 = some pools →
      pools.1.Pairwise (fun a b => env.dupThreshold ≤ env.dupDist a b) ∧
      pools.2.Pairwise (fun a b => env.dupThreshold ≤ env.dupDist a b)) := by
  constructor
  · intro h
    by_cases hlen : req.start_joint_state.length = env.variableCount
    · rw [findGoalStates_eq env req num_goal hlen] at h
      split at h
      · injection h with h
        subst h
        exact ⟨List.pairwise_singleton _ _,
          goalLoop_pairwise env num_goal env.goalPoseMsg _ _ _ _ List.Pairwise.nil⟩
      · exact absurd h (by simp)
    · unfold findGoalStates at h
      rw [if_pos hlen] at h
      exact absurd h (by simp)
  · intro h
    by_cases hguard : num_goal < 1 ∨ num_start < 1
    · unfold findStartGoalStates at h
      rw [if_pos hguard] at h
      exact absurd h (by simp)
    · have h1 : 1 ≤ num_start := by omega
      have h2 : 1 ≤ num_goal := by omega
      rw [findStartGoalStates_eq env req num_start num_goal k0 h1 h2] at h
      split at h
      · injection h with h
        subst h
        exact sgLoop_pairwise env req.start_pose env.goalPoseMsg num_start num_goal
          _ _ _ _ List.Pairwise.nil List.Pairwise.nil
      · exact absurd h (by simp)

/-- Claim C9, witness: the pools of a successful start-given generation run
are pairwise non-duplicate. -/
theorem C9_witness :
    List.Pairwise (fun a b => envIKUnit.dupThreshold ≤ envIKUnit.dupDist a b)
      ([[(0 : ℚ), 0]] : List (List ℚ)) ∧
    List.Pairwise (fun a b => envIKUnit.dupThreshold ≤ envIKUnit.dupDist a b)
      ([[(0 : ℚ), 0]] : List (List ℚ)) :=
  (C9_theorem envIKUnit reqMatched 5 10 () ([[0, 0]], [[0, 0]])).1 (by decide)

theorem appendLoop_pct (valid : PathState → Bool) (theta : ℚ) (n : ℕ) :
    ∀ (l : List PathState) (r : APPlanningResponse),
      ((appendLoop valid theta n l r).1.percentage_complete = r.percentage_complete) ∨
      (∃ s ∈ l, (appendLoop valid theta n l r).1.percentage_complete = s.theta / theta) := by
  intro l
  induction l with
  | nil =>
      intro r
      left
      rfl
  | cons s rest ih =>
      intro r
      simp only [appendLoop]
      by_cases hv : valid s = true
      · simp only [hv, if_true]
        rcases ih { r with points := r.points ++ [extractPoint n s] } with h | ⟨x, hx, h⟩
        · left
          exact h
        · right
          exact ⟨x, List.mem_cons_of_mem s hx, h⟩
      · simp only [hv, if_false]
        right
        exact ⟨s, List.mem_cons_self s rest, rfl⟩

theorem populateResponse_pct (valid : PathState → Bool) (names : List String)
    (theta : ℚ) (sol : PathGeometric) (res : APPlanningResponse)
    (ht : 0 < theta)
    (hb : ∀ s ∈ sol.interpolated, 0 ≤ s.theta ∧ s.theta ≤ theta)
    (h0 : 0 ≤ res.percentage_complete ∧ res.percentage_complete ≤ 1) :
    0 ≤ (populateResponse valid names theta sol res).percentage_complete ∧
    (populateResponse valid names theta sol res).percentage_complete ≤ 1 := by
  by_cases hlen : sol.states.length < 2
  · simp only [populateResponse, if_pos hlen]
    exact h0
  · simp only [populateResponse, if_neg hlen]
    have hpct : ∀ (r1 : APPlanningResponse) (b : Bool),
        appendLoop valid theta names.length sol.interpolated
          { res with joint_names := names } = (r1, b) →
        0 ≤ r1.percentage_complete ∧ r1.percentage_complete ≤ 1 := by
      intro r1 b hw
      rcases appendLoop_pct valid theta names.length sol.interpolated
        { res with joint_names := names } with h | ⟨s, hs, h⟩
      · rw [hw] at h
        rw [h]
        exact h0
      · rw [hw] at h
        rw [h]
        obtain ⟨hs0, hs1⟩ := hb s hs
        exact ⟨div_nonneg hs0 ht.le, (div_le_one ht).mpr hs1⟩
    cases hw : appendLoop valid theta names.length sol.interpolated
        { res with joint_names := names } with
    | mk r1 b =>
        cases b with
        | false =>
            simpa using hpct r1 false hw
        | true =>
            cases hl : sol.interpolated.getLast? with
            | none =>
                simpa using hpct r1 true hw
            | some lastS =>
                obtain ⟨hs0, hs1⟩ := hb lastS (List.mem_of_getLast?_eq_some hl)
                have hd1 : 0 ≤ lastS.theta / theta := div_nonneg hs0 ht.le
                have hd2 : lastS.theta / theta ≤ 1 := (div_le_one ht).mpr hs1
                exact ⟨by simpa using hd1, by simpa using hd2⟩

/-- Claim C8: provided the solved path's interpolated screw-progress values
respect the screw dimension's bounds `[0, theta]` (as the state space
prescribes) and the requested theta is positive, every response produced by
`plan` has `percentage_complete` in `[0, 1]`. -/
theorem C8_theorem {K P : Type} (env : PlanEnv K P) (req : APPlanningRequest P)
    (res : APPlanningResponse) (ht : 0 < req.theta)
    (hsolve : ∀ sc gc sol, env.solve sc gc = some sol →
      ∀ s ∈ sol.interpolated, 0 ≤ s.theta ∧ s.theta ≤ req.theta) :
    0 ≤ (plan env req res).2.percentage_complete ∧
    (plan env req res).2.percentage_complete ≤ 1 := by
  have hreset : 0 ≤ (resetResponse res).percentage_complete ∧
      (resetResponse res).percentage_complete ≤ 1 := by
    constructor <;> simp [resetResponse]
  cases hs : setupStateSpace req.theta env.joints with
  | none =>
      simp only [plan, hs]
      exact hreset
  | some sp =>
      cases hc : findConfigs env req with
      | none =>
          simp only [plan, hs, hc]
          exact hreset
      | some cfgs =>
          cases hv : env.solve cfgs.1 cfgs.2 with
          | none =>
              simp only [plan, hs, hc, hv]
              exact hreset
          | some sol =>
              simp only [plan, hs, hc, hv]
              exact populateResponse_pct env.isValid env.variableNames req.theta sol
                (resetResponse res) ht (hsolve cfgs.1 cfgs.2 sol hv) hreset

/-- Claim C8, witness: a complete successful run whose solved path ends at
full progress yields a completion fraction in `[0, 1]`. -/
theorem C8_witness :
    0 < reqMatched.theta ∧
    (0 ≤ (plan envIKUnit reqMatched resEmpty).2.percentage_complete ∧
      (plan envIKUnit reqMatched resEmpty).2.percentage_complete ≤ 1) :=
  ⟨by norm_num [reqMatched],
   C8_theorem envIKUnit reqMatched resEmpty (by norm_num [reqMatched])
    (by
      intro sc gc sol h s hs
      have h' : some demoPath = some sol := h
      injection h' with h'
      subst h'
      simp only [demoPath, List.mem_singleton] at hs
      subst hs
      norm_num [stOne, reqMatched])⟩

end ap_planning
